import Mathlib

/-!
Verification of the pyril image engine (a pyo3 binding over the `ril`
raster-image library). The dynamic pixel model, the `Image` wrapper
methods and the pixel classes are embedded from `src/src/image.rs` and
`src/src/pixels.rs`. Parts of the engine that live outside those two
files (the `ril` crate's buffer operations and `src/error.rs`) are
modelled from the specification, each marked `Modelled from the spec:`.
Rust panics (out-of-bounds pixel access) are represented by `Option`:
`none` is a panic, `some` a normal return.
-/

namespace Pyril

/-- Tagged union of pixel encodings, `ril::Dynamic` as used throughout
`src/src/image.rs` and `src/src/pixels.rs` (`BitPixel(bool)`, `L(u8)`,
`Rgb{r,g,b}`, `Rgba{r,g,b,a}`); `u8` components are carried as `Nat`
(no arithmetic in the embedded operations overflows them). -/
inductive Dynamic where
  | BitPixel (value : Bool)
  | L (value : Nat)
  | Rgb (r g b : Nat)
  | Rgba (r g b a : Nat)
deriving DecidableEq, Repr

/-- Mode string of a dynamic pixel: the match arms of `Image::mode`
(src/src/image.rs lines 116-121). -/
def Dynamic.modeTag : Dynamic → String
  | .BitPixel _ => "bitpixel"
  | .L _ => "L"
  | .Rgb _ _ _ => "RGB"
  | .Rgba _ _ _ _ => "RGBA"

/-- Modelled from the spec: the `ril` conversion of any dynamic pixel to
a Luma value (spec 4.1): bit false/true maps to 0/255, a weighted channel
combination for rgb/rgba with gray values as fixed points (Rec.601
weights 299/587/114 over 1000 as the concrete policy choice). -/
def Dynamic.toL : Dynamic → Nat
  | .BitPixel b => if b then 255 else 0
  | .L v => v
  | .Rgb r g b => (299 * r + 587 * g + 114 * b) / 1000
  | .Rgba r g b _ => (299 * r + 587 * g + 114 * b) / 1000

/-- Modelled from the spec: the `ril` conversion of any dynamic pixel to
a bit (spec 4.1): luma thresholds at 128 (value >= 128 is true). -/
def Dynamic.toBit : Dynamic → Bool
  | .BitPixel b => b
  | p => decide (128 ≤ p.toL)

/-- Modelled from the spec: the `ril` conversion of any dynamic pixel to
rgb channels (spec 4.1): bit/luma replicate into r,g,b; rgba drops alpha. -/
def Dynamic.toRgb : Dynamic → Nat × Nat × Nat
  | .BitPixel b => let v := if b then 255 else 0; (v, v, v)
  | .L v => (v, v, v)
  | .Rgb r g b => (r, g, b)
  | .Rgba r g b _ => (r, g, b)

/-- Modelled from the spec: the `ril` conversion of any dynamic pixel to
rgba channels (spec 4.1): non-rgba variants gain alpha 255. -/
def Dynamic.toRgba : Dynamic → Nat × Nat × Nat × Nat
  | .Rgba r g b a => (r, g, b, a)
  | p => let c := p.toRgb; (c.1, c.2.1, c.2.2, 255)

/-- The `Image` pyclass (src/src/image.rs lines 17-21) wrapping
`ril::Image<Dynamic>`: width, height, a flat row-major pixel buffer and
an informational format tag (spec 3). -/
structure Image where
  width : Nat
  height : Nat
  pixels : List Dynamic
  format : String
deriving DecidableEq, Repr

/-- Modelled from the spec: `ril`'s pixel accessor used as
`self.inner.pixel(x, y)`; row-major index `y*width + x` (spec 3),
out-of-bounds access panics (`none`). -/
def Image.pixel? (img : Image) (x y : Nat) : Option Dynamic :=
  img.pixels.get? (y * img.width + x)

/-- The `mode` getter (src/src/image.rs lines 115-122): matches on
`self.inner.pixel(0, 0)`; panics (`none`) when the buffer is empty. -/
def Image.mode (img : Image) : Option String :=
  (img.pixel? 0 0).map Dynamic.modeTag

/-- The `dimensions` getter (src/src/image.rs lines 303-305). -/
def Image.dimensions (img : Image) : Nat × Nat :=
  (img.width, img.height)

/-- The `__repr__` method (src/src/image.rs lines 331-341); evaluates
`self.mode()` and therefore panics on an empty image. -/
def Image.reprStr (img : Image) : Option String :=
  img.mode.map fun m =>
    "<Image mode=" ++ m ++ " width=" ++ toString img.width ++
    " height=" ++ toString img.height ++ " format=" ++ img.format ++
    " dimensions=(" ++ toString img.width ++ ", " ++ toString img.height ++ ")>"

/-- Modelled from the spec: the error type of `src/error.rs`, which is
not under src/. The spec (7) gives `UnexpectedFormat{expected, got}`,
`DimensionMismatch` and `ShapeError`; the field order (expected, got)
matches the `paste` and `mask_alpha` call sites and the `ensure_mode!`
message in src/src/image.rs. -/
inductive Error where
  | UnexpectedFormat (expected got : String)
  | DimensionMismatch
  | ShapeError
deriving DecidableEq, Repr

/-- Python-level errors raised by `from_bands` (src/src/image.rs lines
155-183): `PyTypeError` from `ensure_mode!`, `PyValueError` for a bad
tuple length, and engine errors converted to Python exceptions. -/
inductive PyErr where
  | typeError (msg : String)
  | valueError (msg : String)
  | rilErr (e : Error)
deriving DecidableEq, Repr

end Pyril

namespace Pyril

/-- The `Pixel` pyclass (src/src/pixels.rs lines 45-49) wrapping a
`ril::Dynamic`. -/
structure Pixel where
  inner : Dynamic
deriving DecidableEq, Repr

/-- The `Pixel::__repr__` method (src/src/pixels.rs lines 103-112). -/
def Pixel.reprStr (p : Pixel) : String :=
  let out := match p.inner with
    | .BitPixel v => "BitPixel(" ++ toString v ++ ")"
    | .L v => "L(" ++ toString v ++ ")"
    | .Rgb r g b => "Rgb(" ++ toString r ++ ", " ++ toString g ++ ", " ++ toString b ++ ")"
    | .Rgba r g b a =>
        "Rgba(" ++ toString r ++ ", " ++ toString g ++ ", " ++ toString b ++ ", " ++ toString a ++ ")"
  "<Pixel " ++ out ++ ">"

/-- The `BitPixel` pyclass (src/src/pixels.rs lines 9-12). -/
structure BitPixel where
  value : Bool
deriving DecidableEq, Repr

/-- The `BitPixel::__repr__` method (src/src/pixels.rs lines 144-147). -/
def BitPixel.reprStr (p : BitPixel) : String :=
  "<BitPixel value=" ++ toString p.value ++ ">"

/-- The `L` pyclass (src/src/pixels.rs lines 16-19). -/
structure L where
  value : Nat
deriving DecidableEq, Repr

/-- The `L::__repr__` method (src/src/pixels.rs lines 172-175). -/
def L.reprStr (p : L) : String :=
  "<L value=" ++ toString p.value ++ ">"

/-- The `Rgb` pyclass (src/src/pixels.rs lines 23-30). -/
structure Rgb where
  r : Nat
  g : Nat
  b : Nat
deriving DecidableEq, Repr

/-- The `Rgb::__repr__` method (src/src/pixels.rs lines 200-202). -/
def Rgb.reprStr (p : Rgb) : String :=
  "<Rgb r=" ++ toString p.r ++ " g=" ++ toString p.g ++ " b=" ++ toString p.b ++ ">"

/-- The `Rgba` pyclass (src/src/pixels.rs lines 34-43). -/
structure Rgba where
  r : Nat
  g : Nat
  b : Nat
  a : Nat
deriving DecidableEq, Repr

/-- The `Rgba::__repr__` method (src/src/pixels.rs lines 228-230); note
the source format string begins with `<Rgb`, not `<Rgba`. -/
def Rgba.reprStr (p : Rgba) : String :=
  "<Rgb r=" ++ toString p.r ++ " g=" ++ toString p.g ++ " b=" ++ toString p.b ++
  " a=" ++ toString p.a ++ ">"

/-- The four variant-specific pyclass values that `Image::get_pixel`
(src/src/image.rs lines 308-315) can hand back to Python. -/
inductive PyPixel where
  | bit (p : BitPixel)
  | l (p : L)
  | rgb (p : Rgb)
  | rgba (p : Rgba)
deriving DecidableEq, Repr

/-- Modelled from the spec: `ril::Image::new` (spec 4.2) — every cell of
the `width*height` row-major buffer initialized to `fill`; the wrapper
`Image::new` (src/src/image.rs lines 59-63) passes `fill.inner` through.
Fresh `ril` images carry the default format tag. -/
def Image.new (width height : Nat) (fill : Dynamic) : Image :=
  ⟨width, height, List.replicate (width * height) fill, "Png"⟩

/-- Modelled from the spec: `ril::Image::from_pixels` (spec 4.2) —
`height = len / width`, failing with `ShapeError` when `len` is not an
exact multiple of `width`; the wrapper (src/src/image.rs lines 84-94)
unwraps each `Pixel` to its inner `Dynamic` and delegates. -/
def Image.from_pixels (width : Nat) (pixels : List Pixel) : Except Error Image :=
  let ps := pixels.map Pixel.inner
  if ps.length % width = 0 then
    .ok ⟨width, ps.length / width, ps, "Png"⟩
  else
    .error .ShapeError

/-- Modelled from the spec: `ril` whole-image conversion to Luma, used
as `.convert::<ril::L>()` in `to_inner_bands!` (src/src/image.rs lines
33-41); converts every pixel by the 4.1 rules. -/
def Image.convertL (img : Image) : Image :=
  ⟨img.width, img.height, img.pixels.map (fun p => .L p.toL), img.format⟩

/-- Modelled from the spec: `ril` whole-image conversion to BitPixel,
used as `.convert::<ril::BitPixel>()` in `Image::paste`
(src/src/image.rs line 264); converts every pixel by the 4.1 rules. -/
def Image.convertBitPixel (img : Image) : Image :=
  ⟨img.width, img.height, img.pixels.map (fun p => .BitPixel p.toBit), img.format⟩

/-- The result tuple of `Image::bands` (src/src/image.rs lines 136-153):
three band images in RGB mode, four in RGBA mode. -/
inductive BandsResult where
  | three (r g b : Image)
  | four (r g b a : Image)
deriving DecidableEq, Repr

/-- Modelled from the spec: `ril` band decomposition of an RGB image
(spec 4.4) — one Luma image per color channel, each with the source's
width and height. -/
def Image.bandsRgb (img : Image) : Image × Image × Image :=
  (⟨img.width, img.height, img.pixels.map (fun p => .L p.toRgb.1), img.format⟩,
   ⟨img.width, img.height, img.pixels.map (fun p => .L p.toRgb.2.1), img.format⟩,
   ⟨img.width, img.height, img.pixels.map (fun p => .L p.toRgb.2.2), img.format⟩)

/-- Modelled from the spec: `ril` band decomposition of an RGBA image
(spec 4.4) — one Luma image per color/alpha channel, each with the
source's width and height. -/
def Image.bandsRgba (img : Image) : Image × Image × Image × Image :=
  (⟨img.width, img.height, img.pixels.map (fun p => .L p.toRgba.1), img.format⟩,
   ⟨img.width, img.height, img.pixels.map (fun p => .L p.toRgba.2.1), img.format⟩,
   ⟨img.width, img.height, img.pixels.map (fun p => .L p.toRgba.2.2.1), img.format⟩,
   ⟨img.width, img.height, img.pixels.map (fun p => .L p.toRgba.2.2.2), img.format⟩)

/-- The `bands` method (src/src/image.rs lines 136-153): matches on
`self.mode()` (panicking on an empty image); in the default arm it
builds `Error::UnexpectedFormat(self.mode(), "Rgb or Rgba")`, the mode
as the first constructor argument. -/
def Image.bands (img : Image) : Option (Except Error BandsResult) :=
  match img.mode with
  | none => none
  | some m =>
    if m = "RGB" then
      let rgb := img.bandsRgb
      some (.ok (.three rgb.1 rgb.2.1 rgb.2.2))
    else if m = "RGBA" then
      let rgba := img.bandsRgba
      some (.ok (.four rgba.1 rgba.2.1 rgba.2.2.1 rgba.2.2.2))
    else
      some (.error (.UnexpectedFormat m "Rgb or Rgba"))

/-- The `ensure_mode!` macro (src/src/image.rs lines 43-53): checks each
band's `mode()` in order (panicking on an empty band) and returns a
`PyTypeError` naming the first band whose mode is not `L`. -/
def ensure_mode : List Image → Option (Except PyErr Unit)
  | [] => some (.ok ())
  | b :: rest =>
    match b.mode with
    | none => none
    | some m =>
      if m ≠ "L" then
        some (.error (.typeError ("Expected mode `L`, got `" ++ m ++ "`")))
      else
        ensure_mode rest

/-- Modelled from the spec: `ril::Image::from_bands` for three Luma
bands (spec 4.2) — the inputs must have equal width and height, failing
with `DimensionMismatch` otherwise; the result holds one Rgb pixel per
position, channels taken from the bands. -/
def rilFromBands3 (r g b : Image) : Except Error Image :=
  if r.dimensions = g.dimensions ∧ g.dimensions = b.dimensions then
    .ok ⟨r.width, r.height,
      (r.pixels.zip (g.pixels.zip b.pixels)).map
        (fun c => .Rgb c.1.toL c.2.1.toL c.2.2.toL),
      r.format⟩
  else
    .error .DimensionMismatch

/-- Modelled from the spec: `ril::Image::from_bands` for four Luma bands
(spec 4.2) — the inputs must have equal width and height, failing with
`DimensionMismatch` otherwise; the result holds one Rgba pixel per
position, channels taken from the bands. -/
def rilFromBands4 (r g b a : Image) : Except Error Image :=
  if r.dimensions = g.dimensions ∧ g.dimensions = b.dimensions ∧
      b.dimensions = a.dimensions then
    .ok ⟨r.width, r.height,
      (r.pixels.zip (g.pixels.zip (b.pixels.zip a.pixels))).map
        (fun c => .Rgba c.1.toL c.2.1.toL c.2.2.1.toL c.2.2.2.toL),
      r.format⟩
  else
    .error .DimensionMismatch

/-- The `from_bands` classmethod (src/src/image.rs lines 155-183):
matches on the tuple length; for 3 or 4 bands it runs `ensure_mode!`,
converts each band to Luma and calls `ril::Image::from_bands`; any
other length raises a `PyValueError`. -/
def Image.from_bands (bands : List Image) : Option (Except PyErr Image) :=
  match bands with
  | [b0, b1, b2] =>
    match ensure_mode [b0, b1, b2] with
    | none => none
    | some (.error e) => some (.error e)
    | some (.ok ()) =>
      some ((rilFromBands3 b0.convertL b1.convertL b2.convertL).mapError PyErr.rilErr)
  | [b0, b1, b2, b3] =>
    match ensure_mode [b0, b1, b2, b3] with
    | none => none
    | some (.error e) => some (.error e)
    | some (.ok ()) =>
      some ((rilFromBands4 b0.convertL b1.convertL b2.convertL b3.convertL).mapError PyErr.rilErr)
  | _ =>
    some (.error (.valueError
      ("Expected a tuple with 3 or 4 elements, got `" ++ toString bands.length ++ "`")))

/-- Modelled from the spec: `ril`'s unconditional paste (spec 4.4) —
overwrites the destination rectangle starting at `(px, py)` with the
source's pixels, silently clipping whatever falls outside the
destination bounds; the default replace overlay mode is modelled. -/
def Image.rilPaste (dst : Image) (px py : Nat) (src : Image) : Image :=
  ⟨dst.width, dst.height,
    (List.range dst.pixels.length).map (fun i =>
      let x := i % dst.width
      let y := i / dst.width
      let old := dst.pixels.getD i (.L 0)
      if px ≤ x ∧ x < px + src.width ∧ py ≤ y ∧ y < py + src.height then
        match src.pixel? (x - px) (y - py) with
        | some p => p
        | none => old
      else old),
    dst.format⟩

/-- Modelled from the spec: `ril`'s mask-gated paste (spec 4.4) — for
every covered destination cell the corresponding BitPixel mask cell
gates whether the source pixel is written (true) or the destination
pixel is left untouched (false); mask dimensions are expected to match
the source's pasted region. -/
def Image.rilPasteWithMask (dst : Image) (px py : Nat) (src mask : Image) : Image :=
  ⟨dst.width, dst.height,
    (List.range dst.pixels.length).map (fun i =>
      let x := i % dst.width
      let y := i / dst.width
      let old := dst.pixels.getD i (.L 0)
      if px ≤ x ∧ x < px + src.width ∧ py ≤ y ∧ y < py + src.height then
        match src.pixel? (x - px) (y - py), mask.pixel? (x - px) (y - py) with
        | some p, some (.BitPixel true) => p
        | _, _ => old
      else old),
    dst.format⟩

/-- The `paste` method (src/src/image.rs lines 254-270), in
state-passing form (`&mut self` becomes result image): with a mask it
first checks `mask.mode()` (panicking on an empty mask) and returns
`Error::UnexpectedFormat("bitpixel", mask.mode())` when the mode is not
`bitpixel`, leaving the destination untouched; otherwise it pastes with
the mask converted to BitPixel; without a mask it pastes
unconditionally. -/
def Image.paste (dst : Image) (x y : Nat) (image : Image) (mask : Option Image) :
    Option (Image × Except Error Unit) :=
  match mask with
  | some msk =>
    match msk.mode with
    | none => none
    | some m =>
      if m ≠ "bitpixel" then
        some (dst, .error (.UnexpectedFormat "bitpixel" m))
      else
        some (dst.rilPasteWithMask x y image msk.convertBitPixel, .ok ())
  | none => some (dst.rilPaste x y image, .ok ())

/-- Modelled from the spec: `ril`'s alpha masking (spec 4.4) — replaces
the alpha channel of every alpha-capable pixel with the corresponding
Luma value of the mask (positional correspondence; the spec expects
matching dimensions, and a non-alpha-capable destination is a caller
precondition violation, modelled as leaving such pixels unchanged). -/
def Image.rilMaskAlpha (img : Image) (mask : Image) : Image :=
  ⟨img.width, img.height,
    (List.range img.pixels.length).map (fun i =>
      let old := img.pixels.getD i (.L 0)
      match old, mask.pixels.get? i with
      | .Rgba r g b _, some m => .Rgba r g b m.toL
      | _, _ => old),
    img.format⟩

/-- The `mask_alpha` method (src/src/image.rs lines 272-283), in
state-passing form: it first checks `mask.mode()` (panicking on an
empty mask) and returns `Error::UnexpectedFormat("L", mask.mode())`
when the mode is not `L`, leaving the image untouched; otherwise it
applies `ril`'s alpha masking with the mask converted to Luma. -/
def Image.mask_alpha (img : Image) (mask : Image) : Option (Image × Except Error Unit) :=
  match mask.mode with
  | none => none
  | some m =>
    if m ≠ "L" then
      some (img, .error (.UnexpectedFormat "L" m))
    else
      some (img.rilMaskAlpha mask.convertL, .ok ())

/-- The `get_pixel` method (src/src/image.rs lines 307-315): reads
`self.inner.pixel(x, y)` (panicking when out of bounds) and wraps the
variant in its pyclass. -/
def Image.get_pixel (img : Image) (x y : Nat) : Option PyPixel :=
  (img.pixel? x y).map fun p =>
    match p with
    | .BitPixel v => .bit ⟨v⟩
    | .L v => .l ⟨v⟩
    | .Rgb r g b => .rgb ⟨r, g, b⟩
    | .Rgba r g b a => .rgba ⟨r, g, b, a⟩

/-- The `set_pixel` method (src/src/image.rs lines 317-320), in
state-passing form; modelled from the spec for the inner
`ril::Image::set_pixel`: a direct indexed write at `y*width + x`
(spec 3, 4.3). -/
def Image.set_pixel (img : Image) (x y : Nat) (pixel : Pixel) : Image :=
  { img with pixels := img.pixels.set (y * img.width + x) pixel.inner }

end Pyril

namespace Pyril

/-- C1: the claim says `bands()` on a non-RGB/RGBA image fails with
`UnexpectedFormat{expected:"Rgb or Rgba", got:<mode>}`. The source
(src/src/image.rs lines 148-151) passes the mode as the first
(`expected`) argument and `"Rgb or Rgba"` as the second (`got`),
swapped relative to the `paste` and `mask_alpha` call sites: on a Luma
image the error carries `expected = "L"` and `got = "Rgb or Rgba"`,
not the claimed `expected = "Rgb or Rgba"`, `got = "L"`. -/
theorem C1_bands_error_fields_swapped :
    (Image.new 1 1 (Dynamic.L 0)).bands =
      some (.error (.UnexpectedFormat "L" "Rgb or Rgba")) ∧
    (Image.new 1 1 (Dynamic.L 0)).bands ≠
      some (.error (.UnexpectedFormat "Rgb or Rgba" "L")) := by
  constructor
  · rfl
  · intro h
    rw [show (Image.new 1 1 (Dynamic.L 0)).bands =
      some (Except.error (Error.UnexpectedFormat "L" "Rgb or Rgba")) from rfl] at h
    simp at h

/-- C2: `mask_alpha` with a mask whose mode is not `L` fails with
`UnexpectedFormat{expected:"L", got:<the mask's mode>}` and the image
is returned unchanged (src/src/image.rs lines 272-283). -/
theorem C2_mask_alpha_requires_luma_mask (img mask : Image) (m : String)
    (hm : mask.mode = some m) (hne : m ≠ "L") :
    img.mask_alpha mask = some (img, .error (.UnexpectedFormat "L" m)) := by
  unfold Image.mask_alpha
  rw [hm]
  simp [hne]

/-- Witness for C2: an RGB-mode mask yields
`UnexpectedFormat{expected:"L", got:"RGB"}`. -/
theorem C2_mask_alpha_witness :
    (Image.new 1 1 (Dynamic.Rgba 0 0 0 0)).mask_alpha (Image.new 1 1 (Dynamic.Rgb 0 0 0)) =
      some (Image.new 1 1 (Dynamic.Rgba 0 0 0 0), .error (.UnexpectedFormat "L" "RGB")) :=
  C2_mask_alpha_requires_luma_mask _ _ "RGB" (by decide) (by decide)

/-- C3: `from_pixels(width, pixels)` fails with `ShapeError` exactly
when the sequence length is not a multiple of the width, and otherwise
succeeds with `height = length / width`. -/
theorem C3_from_pixels_shape (w : Nat) (ps : List Pixel) (hw : 0 < w) :
    (ps.length % w ≠ 0 → Image.from_pixels w ps = .error .ShapeError) ∧
    (ps.length % w = 0 → ∃ img, Image.from_pixels w ps = .ok img ∧
      img.height = ps.length / w ∧ img.width = w) := by
  constructor
  · intro h
    simp [Image.from_pixels, h]
  · intro h
    refine ⟨⟨w, ps.length / w, ps.map Pixel.inner, "Png"⟩, ?_, rfl, rfl⟩
    simp [Image.from_pixels, h]

/-- Witness for C3: width 2 with 3 pixels fails with `ShapeError`;
width 2 with 4 pixels succeeds with height 2. -/
theorem C3_from_pixels_witness :
    0 < 2 ∧
    Image.from_pixels 2 [⟨.L 1⟩, ⟨.L 2⟩, ⟨.L 3⟩] = .error .ShapeError ∧
    (∃ img, Image.from_pixels 2 [⟨.L 1⟩, ⟨.L 2⟩, ⟨.L 3⟩, ⟨.L 4⟩] = .ok img ∧
      img.height = ([⟨.L 1⟩, ⟨.L 2⟩, ⟨.L 3⟩, ⟨.L 4⟩] : List Pixel).length / 2 ∧
      img.width = 2) :=
  ⟨by decide,
   (C3_from_pixels_shape 2 [⟨.L 1⟩, ⟨.L 2⟩, ⟨.L 3⟩] (by decide)).1 (by decide),
   (C3_from_pixels_shape 2 [⟨.L 1⟩, ⟨.L 2⟩, ⟨.L 3⟩, ⟨.L 4⟩] (by decide)).2 (by decide)⟩

/-- C5: the claim says every pixel class renders under its own variant
name. BitPixel, L and Rgb do, but `Rgba::__repr__`
(src/src/pixels.rs line 229) formats with the `<Rgb ...>` label: an
Rgba value renders as `Rgb` with four components, not as `Rgba`. -/
theorem C5_rgba_repr_labelled_rgb :
    BitPixel.reprStr ⟨true⟩ = "<BitPixel value=true>" ∧
    L.reprStr ⟨7⟩ = "<L value=7>" ∧
    Rgb.reprStr ⟨1, 2, 3⟩ = "<Rgb r=1 g=2 b=3>" ∧
    Rgba.reprStr ⟨1, 2, 3, 4⟩ = "<Rgb r=1 g=2 b=3 a=4>" :=
  ⟨rfl, rfl, rfl, rfl⟩

/-- C6: `paste` with a mask whose mode is not `bitpixel` fails with
`UnexpectedFormat{expected:"bitpixel", got:<the mask's mode>}` leaving
the destination unchanged; with a BitPixel-mode mask it proceeds to the
mask-gated paste; with no mask it pastes unconditionally and succeeds
(src/src/image.rs lines 254-270). -/
theorem C6_paste_mask_mode_gate :
    (∀ (dst : Image) (x y : Nat) (src msk : Image) (m : String),
      msk.mode = some m → m ≠ "bitpixel" →
      dst.paste x y src (some msk) =
        some (dst, .error (.UnexpectedFormat "bitpixel" m))) ∧
    (∀ (dst : Image) (x y : Nat) (src msk : Image),
      msk.mode = some "bitpixel" →
      dst.paste x y src (some msk) =
        some (dst.rilPasteWithMask x y src msk.convertBitPixel, .ok ())) ∧
    (∀ (dst : Image) (x y : Nat) (src : Image),
      dst.paste x y src none = some (dst.rilPaste x y src, .ok ())) := by
  refine ⟨?_, ?_, ?_⟩
  · intro dst x y src msk m hm hne
    simp [Image.paste, hm, hne]
  · intro dst x y src msk hm
    simp [Image.paste, hm]
  · intro dst x y src
    rfl

/-- Witness for C6: a Luma-mode mask is rejected with
`UnexpectedFormat{expected:"bitpixel", got:"L"}`, a BitPixel-mode mask
is accepted, and a maskless paste succeeds. -/
theorem C6_paste_witness :
    (Image.new 1 1 (Dynamic.Rgb 0 0 0)).paste 0 0 (Image.new 1 1 (Dynamic.Rgb 9 9 9))
        (some (Image.new 1 1 (Dynamic.L 0))) =
      some (Image.new 1 1 (Dynamic.Rgb 0 0 0), .error (.UnexpectedFormat "bitpixel" "L")) ∧
    (Image.new 1 1 (Dynamic.Rgb 0 0 0)).paste 0 0 (Image.new 1 1 (Dynamic.Rgb 9 9 9))
        (some (Image.new 1 1 (Dynamic.BitPixel true))) =
      some ((Image.new 1 1 (Dynamic.Rgb 0 0 0)).rilPasteWithMask 0 0
        (Image.new 1 1 (Dynamic.Rgb 9 9 9)) (Image.new 1 1 (Dynamic.BitPixel true)).convertBitPixel,
        .ok ()) ∧
    (Image.new 1 1 (Dynamic.Rgb 0 0 0)).paste 0 0 (Image.new 1 1 (Dynamic.Rgb 9 9 9)) none =
      some ((Image.new 1 1 (Dynamic.Rgb 0 0 0)).rilPaste 0 0 (Image.new 1 1 (Dynamic.Rgb 9 9 9)),
        .ok ()) :=
  ⟨C6_paste_mask_mode_gate.1 _ 0 0 _ _ "L" (by decide) (by decide),
   C6_paste_mask_mode_gate.2.1 _ 0 0 _ _ (by decide),
   C6_paste_mask_mode_gate.2.2 _ 0 0 _⟩

end Pyril

namespace Pyril

/-- Row-major indices of two coordinates with in-range columns agree
exactly when the coordinates agree. -/
theorem rowIndexEq {w x x2 y y2 : Nat} (hx : x < w) (hx2 : x2 < w)
    (h : y * w + x = y2 * w + x2) : x = x2 ∧ y = y2 := by
  have hw : 0 < w := Nat.lt_of_le_of_lt (Nat.zero_le x) hx
  have h2 : w * y + x = w * y2 + x2 := by
    rw [Nat.mul_comm w y, Nat.mul_comm w y2]; exact h
  have hmod : x = x2 := by
    have h3 := congrArg (fun t => t % w) h2
    simpa [Nat.mul_add_mod, Nat.mod_eq_of_lt hx, Nat.mod_eq_of_lt hx2] using h3
  have hdiv : y = y2 := by
    have h3 := congrArg (fun t => t / w) h2
    simpa [Nat.mul_add_div hw, Nat.div_eq_of_lt hx, Nat.div_eq_of_lt hx2] using h3
  exact ⟨hmod, hdiv⟩

/-- C8: in the 2x2 scenario, `set_pixel(1,1, rgb(0,255,0))` after
`new(2,2, rgb(255,0,0))` makes `get_pixel(1,1)` return `rgb(0,255,0)`
while every other cell still returns `rgb(255,0,0)`; in general
`set_pixel` writes exactly the addressed row-major cell and leaves
every other in-range cell unchanged. -/
theorem C8_set_pixel_exact_cell :
    ((((Image.new 2 2 (Dynamic.Rgb 255 0 0)).set_pixel 1 1 ⟨Dynamic.Rgb 0 255 0⟩).get_pixel 1 1 =
        some (.rgb ⟨0, 255, 0⟩)) ∧
      (((Image.new 2 2 (Dynamic.Rgb 255 0 0)).set_pixel 1 1 ⟨Dynamic.Rgb 0 255 0⟩).get_pixel 0 0 =
        some (.rgb ⟨255, 0, 0⟩)) ∧
      (((Image.new 2 2 (Dynamic.Rgb 255 0 0)).set_pixel 1 1 ⟨Dynamic.Rgb 0 255 0⟩).get_pixel 1 0 =
        some (.rgb ⟨255, 0, 0⟩)) ∧
      (((Image.new 2 2 (Dynamic.Rgb 255 0 0)).set_pixel 1 1 ⟨Dynamic.Rgb 0 255 0⟩).get_pixel 0 1 =
        some (.rgb ⟨255, 0, 0⟩))) ∧
    (∀ (img : Image) (x y : Nat) (p : Pixel),
      y * img.width + x < img.pixels.length →
      (img.set_pixel x y p).pixel? x y = some p.inner) ∧
    (∀ (img : Image) (x y x2 y2 : Nat) (p : Pixel),
      x < img.width → x2 < img.width → ¬(x = x2 ∧ y = y2) →
      (img.set_pixel x y p).get_pixel x2 y2 = img.get_pixel x2 y2) := by
  refine ⟨⟨rfl, rfl, rfl, rfl⟩, ?_, ?_⟩
  · intro img x y p hlt
    unfold Image.set_pixel Image.pixel?
    exact List.get?_set_eq_of_lt p.inner hlt
  · intro img x y x2 y2 p hx hx2 hne
    have hidx : y * img.width + x ≠ y2 * img.width + x2 :=
      fun hh => hne (rowIndexEq hx hx2 hh)
    unfold Image.get_pixel Image.set_pixel Image.pixel?
    rw [List.get?_set_ne p.inner img.pixels hidx]

/-- Witness for C8: the general cell-write and frame parts applied to
the 2x2 scenario image. -/
theorem C8_set_pixel_witness :
    ((Image.new 2 2 (Dynamic.Rgb 255 0 0)).set_pixel 1 1 ⟨Dynamic.Rgb 0 255 0⟩).pixel? 1 1 =
      some (Dynamic.Rgb 0 255 0) ∧
    ((Image.new 2 2 (Dynamic.Rgb 255 0 0)).set_pixel 1 1 ⟨Dynamic.Rgb 0 255 0⟩).get_pixel 0 1 =
      (Image.new 2 2 (Dynamic.Rgb 255 0 0)).get_pixel 0 1 :=
  ⟨C8_set_pixel_exact_cell.2.1 (Image.new 2 2 (Dynamic.Rgb 255 0 0)) 1 1
      ⟨Dynamic.Rgb 0 255 0⟩ (by decide),
   C8_set_pixel_exact_cell.2.2 (Image.new 2 2 (Dynamic.Rgb 255 0 0)) 1 1 0 1
      ⟨Dynamic.Rgb 0 255 0⟩ (by decide) (by decide) (by decide)⟩

/-- C9: `mode` reads the pixel at (0,0), so it panics (`none`) exactly
on an image with zero pixels, and every operation that consults a
`mode()` first — `bands`, `paste` with a mask, `mask_alpha`,
`__repr__` — panics on that empty image too; on a non-empty image
`mode` is well-defined. -/
theorem C9_mode_reads_first_pixel :
    (∀ img : Image, img.pixels = [] →
      img.mode = none ∧ img.bands = none ∧ img.reprStr = none ∧
      (∀ (dst : Image) (x y : Nat) (src : Image),
        dst.paste x y src (some img) = none) ∧
      (∀ dst : Image, dst.mask_alpha img = none)) ∧
    (∀ img : Image, img.pixels ≠ [] → img.mode ≠ none) := by
  constructor
  · intro img h
    have hm : img.mode = none := by
      simp [Image.mode, Image.pixel?, h]
    refine ⟨hm, ?_, ?_, ?_, ?_⟩
    · simp [Image.bands, hm]
    · simp [Image.reprStr, hm]
    · intro dst x y src
      simp [Image.paste, hm]
    · intro dst
      simp [Image.mask_alpha, hm]
  · intro img h
    rcases hp : img.pixels with _ | ⟨p, rest⟩
    · exact absurd hp h
    · simp [Image.mode, Image.pixel?, hp]

/-- Witness for C9: the zero-pixel image makes `mode`, `bands`,
`__repr__` and the mask-consulting operations panic, while a 1x1 image
has a defined mode. -/
theorem C9_empty_image_witness :
    (⟨0, 0, [], "Png"⟩ : Image).mode = none ∧
    (⟨0, 0, [], "Png"⟩ : Image).bands = none ∧
    (⟨0, 0, [], "Png"⟩ : Image).reprStr = none ∧
    (Image.new 1 1 (Dynamic.Rgb 0 0 0)).paste 0 0 (Image.new 1 1 (Dynamic.Rgb 0 0 0))
      (some ⟨0, 0, [], "Png"⟩) = none ∧
    (Image.new 1 1 (Dynamic.Rgba 0 0 0 0)).mask_alpha ⟨0, 0, [], "Png"⟩ = none ∧
    (Image.new 1 1 (Dynamic.L 0)).mode ≠ none := by
  have h := C9_mode_reads_first_pixel.1 ⟨0, 0, [], "Png"⟩ rfl
  exact ⟨h.1, h.2.1, h.2.2.1, h.2.2.2.1 _ 0 0 _, h.2.2.2.2 _,
    C9_mode_reads_first_pixel.2 _ (by decide)⟩

/-- C10: when `paste` rejects its mask or `mask_alpha` rejects its mask
on the mode check, the returned destination image equals the input
destination: the check precedes every write, so an error implies no
mutation (src/src/image.rs lines 254-283). -/
theorem C10_mode_check_precedes_mutation :
    (∀ (dst : Image) (x y : Nat) (src msk img2 : Image) (e : Error),
      dst.paste x y src (some msk) = some (img2, .error e) → img2 = dst) ∧
    (∀ (img msk img2 : Image) (e : Error),
      img.mask_alpha msk = some (img2, .error e) → img2 = img) := by
  constructor
  · intro dst x y src msk img2 e h
    rcases hm : msk.mode with _ | m
    · simp [Image.paste, hm] at h
    · by_cases hne : m = "bitpixel"
      · subst hne
        simp [Image.paste, hm] at h
      · simp [Image.paste, hm, hne] at h
        exact h.1.symm
  · intro img msk img2 e h
    rcases hm : msk.mode with _ | m
    · simp [Image.mask_alpha, hm] at h
    · by_cases hne : m = "L"
      · subst hne
        simp [Image.mask_alpha, hm] at h
      · simp [Image.mask_alpha, hm, hne] at h
        exact h.1.symm

/-- Witness for C10: the rejected Luma paste mask and the rejected RGB
alpha mask both leave the concrete destination equal to itself. -/
theorem C10_no_mutation_witness :
    Image.new 1 1 (Dynamic.Rgb 0 0 0) = Image.new 1 1 (Dynamic.Rgb 0 0 0) ∧
    Image.new 1 1 (Dynamic.Rgba 0 0 0 0) = Image.new 1 1 (Dynamic.Rgba 0 0 0 0) :=
  ⟨C10_mode_check_precedes_mutation.1 (Image.new 1 1 (Dynamic.Rgb 0 0 0)) 0 0
      (Image.new 1 1 (Dynamic.Rgb 9 9 9)) (Image.new 1 1 (Dynamic.L 0))
      (Image.new 1 1 (Dynamic.Rgb 0 0 0)) (.UnexpectedFormat "bitpixel" "L") rfl,
   C10_mode_check_precedes_mutation.2 (Image.new 1 1 (Dynamic.Rgba 0 0 0 0))
      (Image.new 1 1 (Dynamic.Rgb 0 0 0)) (Image.new 1 1 (Dynamic.Rgba 0 0 0 0))
      (.UnexpectedFormat "L" "RGB") rfl⟩

end Pyril

namespace Pyril

/-- C4: `from_bands` on 3 or 4 Luma-mode band images whose widths and
heights are not all equal fails with `DimensionMismatch` (returned as a
recoverable error, not a process abort). -/
theorem C4_from_bands_dimension_mismatch :
    (∀ b0 b1 b2 : Image,
      b0.mode = some "L" → b1.mode = some "L" → b2.mode = some "L" →
      ¬(b0.dimensions = b1.dimensions ∧ b1.dimensions = b2.dimensions) →
      Image.from_bands [b0, b1, b2] = some (.error (.rilErr .DimensionMismatch))) ∧
    (∀ b0 b1 b2 b3 : Image,
      b0.mode = some "L" → b1.mode = some "L" → b2.mode = some "L" → b3.mode = some "L" →
      ¬(b0.dimensions = b1.dimensions ∧ b1.dimensions = b2.dimensions ∧
        b2.dimensions = b3.dimensions) →
      Image.from_bands [b0, b1, b2, b3] = some (.error (.rilErr .DimensionMismatch))) := by
  constructor
  · intro b0 b1 b2 h0 h1 h2 hne
    have e : Image.from_bands [b0, b1, b2] =
        some ((rilFromBands3 b0.convertL b1.convertL b2.convertL).mapError PyErr.rilErr) := by
      simp [Image.from_bands, ensure_mode, h0, h1, h2]
    rw [e]
    unfold rilFromBands3
    rw [if_neg]
    · rfl
    · exact hne
  · intro b0 b1 b2 b3 h0 h1 h2 h3 hne
    have e : Image.from_bands [b0, b1, b2, b3] =
        some ((rilFromBands4 b0.convertL b1.convertL b2.convertL b3.convertL).mapError
          PyErr.rilErr) := by
      simp [Image.from_bands, ensure_mode, h0, h1, h2, h3]
    rw [e]
    unfold rilFromBands4
    rw [if_neg]
    · rfl
    · exact hne

/-- Witness for C4: three 1x1 Luma bands with a 2x1 third band fail
with `DimensionMismatch`, as do four such bands. -/
theorem C4_dimension_mismatch_witness :
    Image.from_bands [Image.new 1 1 (Dynamic.L 0), Image.new 1 1 (Dynamic.L 0),
        Image.new 2 1 (Dynamic.L 0)] =
      some (.error (.rilErr .DimensionMismatch)) ∧
    Image.from_bands [Image.new 1 1 (Dynamic.L 0), Image.new 1 1 (Dynamic.L 0),
        Image.new 1 1 (Dynamic.L 0), Image.new 1 2 (Dynamic.L 0)] =
      some (.error (.rilErr .DimensionMismatch)) :=
  ⟨C4_from_bands_dimension_mismatch.1 _ _ _ (by decide) (by decide) (by decide) (by decide),
   C4_from_bands_dimension_mismatch.2 _ _ _ _ (by decide) (by decide) (by decide) (by decide)
     (by decide)⟩

end Pyril

namespace Pyril

/-- C7: every band handed to `from_bands` must be in Luma mode — the
call fails with a `PyTypeError` reporting expected `L` and an offending
band's actual mode otherwise; on success the result's pixel variant is
RGB for 3 bands and RGBA for 4; any other tuple length is rejected with
a `PyValueError`. -/
theorem C7_from_bands_modes_and_variant :
    (∀ (b0 b1 b2 : Image) (m0 m1 m2 : String),
      b0.mode = some m0 → b1.mode = some m1 → b2.mode = some m2 →
      ¬(m0 = "L" ∧ m1 = "L" ∧ m2 = "L") →
      ∃ m, m ≠ "L" ∧ (m = m0 ∨ m = m1 ∨ m = m2) ∧
        Image.from_bands [b0, b1, b2] =
          some (.error (.typeError ("Expected mode `L`, got `" ++ m ++ "`")))) ∧
    (∀ (b0 b1 b2 b3 : Image) (m0 m1 m2 m3 : String),
      b0.mode = some m0 → b1.mode = some m1 → b2.mode = some m2 → b3.mode = some m3 →
      ¬(m0 = "L" ∧ m1 = "L" ∧ m2 = "L" ∧ m3 = "L") →
      ∃ m, m ≠ "L" ∧ (m = m0 ∨ m = m1 ∨ m = m2 ∨ m = m3) ∧
        Image.from_bands [b0, b1, b2, b3] =
          some (.error (.typeError ("Expected mode `L`, got `" ++ m ++ "`")))) ∧
    (∀ b0 b1 b2 : Image,
      b0.mode = some "L" → b1.mode = some "L" → b2.mode = some "L" →
      b0.dimensions = b1.dimensions → b1.dimensions = b2.dimensions →
      ∃ img, Image.from_bands [b0, b1, b2] = some (.ok img) ∧ img.mode = some "RGB") ∧
    (∀ b0 b1 b2 b3 : Image,
      b0.mode = some "L" → b1.mode = some "L" → b2.mode = some "L" → b3.mode = some "L" →
      b0.dimensions = b1.dimensions → b1.dimensions = b2.dimensions →
      b2.dimensions = b3.dimensions →
      ∃ img, Image.from_bands [b0, b1, b2, b3] = some (.ok img) ∧ img.mode = some "RGBA") ∧
    (∀ bands : List Image, bands.length ≠ 3 → bands.length ≠ 4 →
      Image.from_bands bands = some (.error (.valueError
        ("Expected a tuple with 3 or 4 elements, got `" ++ toString bands.length ++ "`")))) := by
  refine ⟨?_, ?_, ?_, ?_, ?_⟩
  · intro b0 b1 b2 m0 m1 m2 h0 h1 h2 hno
    by_cases hm0 : m0 = "L"
    · subst hm0
      by_cases hm1 : m1 = "L"
      · subst hm1
        have hm2 : m2 ≠ "L" := fun hc => hno ⟨rfl, rfl, hc⟩
        exact ⟨m2, hm2, Or.inr (Or.inr rfl),
          by simp [Image.from_bands, ensure_mode, h0, h1, h2, hm2]⟩
      · exact ⟨m1, hm1, Or.inr (Or.inl rfl),
          by simp [Image.from_bands, ensure_mode, h0, h1, hm1]⟩
    · exact ⟨m0, hm0, Or.inl rfl,
        by simp [Image.from_bands, ensure_mode, h0, hm0]⟩
  · intro b0 b1 b2 b3 m0 m1 m2 m3 h0 h1 h2 h3 hno
    by_cases hm0 : m0 = "L"
    · subst hm0
      by_cases hm1 : m1 = "L"
      · subst hm1
        by_cases hm2 : m2 = "L"
        · subst hm2
          have hm3 : m3 ≠ "L" := fun hc => hno ⟨rfl, rfl, rfl, hc⟩
          exact ⟨m3, hm3, Or.inr (Or.inr (Or.inr rfl)),
            by simp [Image.from_bands, ensure_mode, h0, h1, h2, h3, hm3]⟩
        · exact ⟨m2, hm2, Or.inr (Or.inr (Or.inl rfl)),
            by simp [Image.from_bands, ensure_mode, h0, h1, h2, hm2]⟩
      · exact ⟨m1, hm1, Or.inr (Or.inl rfl),
          by simp [Image.from_bands, ensure_mode, h0, h1, hm1]⟩
    · exact ⟨m0, hm0, Or.inl rfl,
        by simp [Image.from_bands, ensure_mode, h0, hm0]⟩
  · intro b0 b1 b2 h0 h1 h2 hd01 hd12
    rcases hp0 : b0.pixels with _ | ⟨p0, t0⟩
    · simp [Image.mode, Image.pixel?, hp0] at h0
    rcases hp1 : b1.pixels with _ | ⟨p1, t1⟩
    · simp [Image.mode, Image.pixel?, hp1] at h1
    rcases hp2 : b2.pixels with _ | ⟨p2, t2⟩
    · simp [Image.mode, Image.pixel?, hp2] at h2
    have e : Image.from_bands [b0, b1, b2] =
        some ((rilFromBands3 b0.convertL b1.convertL b2.convertL).mapError PyErr.rilErr) := by
      simp [Image.from_bands, ensure_mode, h0, h1, h2]
    have hcond : (Image.convertL b0).dimensions = (Image.convertL b1).dimensions ∧
        (Image.convertL b1).dimensions = (Image.convertL b2).dimensions := ⟨hd01, hd12⟩
    rw [e]
    unfold rilFromBands3
    rw [if_pos hcond]
    refine ⟨_, rfl, ?_⟩
    simp [Image.mode, Image.pixel?, Image.convertL, hp0, hp1, hp2, Dynamic.modeTag]
  · intro b0 b1 b2 b3 h0 h1 h2 h3 hd01 hd12 hd23
    rcases hp0 : b0.pixels with _ | ⟨p0, t0⟩
    · simp [Image.mode, Image.pixel?, hp0] at h0
    rcases hp1 : b1.pixels with _ | ⟨p1, t1⟩
    · simp [Image.mode, Image.pixel?, hp1] at h1
    rcases hp2 : b2.pixels with _ | ⟨p2, t2⟩
    · simp [Image.mode, Image.pixel?, hp2] at h2
    rcases hp3 : b3.pixels with _ | ⟨p3, t3⟩
    · simp [Image.mode, Image.pixel?, hp3] at h3
    have e : Image.from_bands [b0, b1, b2, b3] =
        some ((rilFromBands4 b0.convertL b1.convertL b2.convertL b3.convertL).mapError
          PyErr.rilErr) := by
      simp [Image.from_bands, ensure_mode, h0, h1, h2, h3]
    have hcond : (Image.convertL b0).dimensions = (Image.convertL b1).dimensions ∧
        (Image.convertL b1).dimensions = (Image.convertL b2).dimensions ∧
        (Image.convertL b2).dimensions = (Image.convertL b3).dimensions := ⟨hd01, hd12, hd23⟩
    rw [e]
    unfold rilFromBands4
    rw [if_pos hcond]
    refine ⟨_, rfl, ?_⟩
    simp [Image.mode, Image.pixel?, Image.convertL, hp0, hp1, hp2, hp3, Dynamic.modeTag]
  · intro bands h3 h4
    rcases bands with _ | ⟨a, _ | ⟨b, _ | ⟨c, _ | ⟨d, _ | ⟨e, rest⟩⟩⟩⟩⟩
    · rfl
    · rfl
    · rfl
    · exact absurd rfl h3
    · exact absurd rfl h4
    · rfl

/-- Witness for C7: a 1-element tuple is rejected with the length
error, and a 3-band tuple whose middle band is RGB fails reporting
expected `L`, got `RGB`. -/
theorem C7_from_bands_witness :
    Image.from_bands [Image.new 1 1 (Dynamic.L 0)] =
      some (.error (.valueError ("Expected a tuple with 3 or 4 elements, got `" ++
        toString ([Image.new 1 1 (Dynamic.L 0)] : List Image).length ++ "`"))) ∧
    Image.from_bands [Image.new 1 1 (Dynamic.L 0), Image.new 1 1 (Dynamic.Rgb 0 0 0),
        Image.new 1 1 (Dynamic.L 0)] =
      some (.error (.typeError ("Expected mode `L`, got `" ++ "RGB" ++ "`"))) := by
  constructor
  · exact C7_from_bands_modes_and_variant.2.2.2.2 [Image.new 1 1 (Dynamic.L 0)]
      (by decide) (by decide)
  · obtain ⟨m, hm, hmem, heq⟩ := C7_from_bands_modes_and_variant.1
      (Image.new 1 1 (Dynamic.L 0)) (Image.new 1 1 (Dynamic.Rgb 0 0 0))
      (Image.new 1 1 (Dynamic.L 0)) "L" "RGB" "L" (by decide) (by decide) (by decide)
      (by simp)
    rcases hmem with rfl | rfl | rfl
    · exact absurd rfl hm
    · exact heq
    · exact absurd rfl hm

end Pyril
